import Mathlib

/-!
Shallow embedding of `src/scripts/citations.py` from the C2DH/digital-monography
repository: the citation & bibliography resolution engine.  HTML trees are
modelled as rose trees, Python dicts as association lists, Python exceptions as
`Except`.  The external libraries (`base64`+`json` decoding, the `citeproc`
style engine) are parameters: the decode step is a function that may fail, and
the style engine is a record of deterministic functions, since the source
treats both as black boxes.
-/

namespace Citations

/-- A JSON scalar as it appears in a citation item's `itemData` dict: the
source only ever reads the `id` entry, whose declared type is `int | str`. -/
inductive PyVal where
  | pstr : String → PyVal
  | pint : Int → PyVal
deriving DecidableEq

/-- Python `str(...)` applied to an `id` value (citations.py line 99). -/
def pyValStr : PyVal → String
  | .pstr s => s
  | .pint n => toString n

/-- Attributes of an HTML tag, as bs4 exposes them (`span.attrs`). -/
abbrev Attrs := List (String × String)

/-- One `itemData` dict (an association list; only `id` is ever read). -/
abbrev ItemData := List (String × PyVal)

/-- Python dict lookup returning `none` where Python raises `KeyError`. -/
def dictFind (d : ItemData) (k : String) : Option PyVal :=
  (d.find? (fun kv => kv.1 == k)).map (fun kv => kv.2)

/-- bs4 attribute lookup (`attrs[k]`), `none` where Python raises `KeyError`. -/
def attrFind (a : Attrs) (k : String) : Option String :=
  (a.find? (fun kv => kv.1 == k)).map (fun kv => kv.2)

/-- `CitationItem` (citations.py lines 9-12): only `itemData` is ever read by
the engine core, so the other fields are dropped. -/
structure CitationItem where
  itemData : ItemData
deriving DecidableEq

/-- `CitationItemProps` (citations.py lines 15-18): only `plainCitation` is
read by the engine core. -/
structure CitationProps where
  plainCitation : String
deriving DecidableEq

/-- `Citation` (citations.py lines 21-25): one decoded citation group. -/
structure Citation where
  citationItems : List CitationItem
  properties : CitationProps
deriving DecidableEq

/-- A DOM-like tree node: an element with a name, attributes and children, or
a text node.  A `BeautifulSoup` document is a list of root-level nodes. -/
inductive Node where
  | tag : String → Attrs → List Node → Node
  | text : String → Node

/-- Python exceptions raised by the engine core. -/
inductive Err where
  | keyError : String → Err
  | decodeError : Err
  | styleNotFound : String → Err
  | indexError : Err
deriving DecidableEq

/-- The data-URI header `"data:application/json;base64,"` tested by
`_has_inner_json_data` (citations.py line 35). -/
def jsonHeader : String := "data:application/json;base64,"

/-- Python `s.startswith(p)`, written over the character lists so that it
evaluates inside the kernel. -/
def strStartsWith (s p : String) : Bool :=
  List.isPrefixOf p.data s.data

/-- Python `s[n:]` (drop the first `n` code points). -/
def strDrop (s : String) (n : Nat) : String :=
  String.mk (s.data.drop n)

/-- Split a character list on spaces, keeping empty pieces, as bs4 does when
matching a multi-valued `class` attribute. -/
def splitSpacesAux : List Char → List Char → List (List Char)
  | [], acc => [acc.reverse]
  | c :: cs, acc =>
    if c = ' ' then acc.reverse :: splitSpacesAux cs []
    else splitSpacesAux cs (c :: acc)

/-- bs4 match for `find_all("span", ...class citation...)` (citations.py lines
28-31): the tag is a `span` and `"citation"` is among its space-separated
class values. -/
def isCitationSpan (name : String) (attrs : Attrs) : Bool :=
  name == "span" &&
    (match attrFind attrs "class" with
     | some c => (splitSpacesAux c.data []).contains "citation".data
     | none => false)

/-- The external decode step `json.loads(base64.b64decode(payload),
strict=False)` (citations.py lines 64-69), as a black-box function that may
fail: `none` models the raised `binascii.Error` / `JSONDecodeError`. -/
abbrev Decoder := String → Option Citation

mutual

/-- `extract_citations` (citations.py lines 58-71), per node.  bs4's
`find_all` yields the citation-class spans in document (preorder) order and
descends into matched elements; the loop body inlines
`_has_inner_json_data` (attribute lookup raising `KeyError` when `data-src`
is absent, then the data-URI header test) and the decode of the payload
after the header.  The first raised exception aborts the whole extraction,
exactly as in Python. -/
def extractNode (dec : Decoder) : Node → Except Err (List Citation)
  | .text _ => .ok []
  | .tag name attrs children =>
    if isCitationSpan name attrs then
      match attrFind attrs "data-src" with
      | none => .error (.keyError "data-src")
      | some v =>
        if strStartsWith v jsonHeader then
          match dec (strDrop v jsonHeader.length) with
          | none => .error .decodeError
          | some cit => (extractList dec children).map (fun rest => cit :: rest)
        else extractList dec children
    else extractList dec children

/-- `extract_citations` over a list of sibling nodes, left to right. -/
def extractList (dec : Decoder) : List Node → Except Err (List Citation)
  | [] => .ok []
  | n :: ns =>
    match extractNode dec n with
    | .error e => .error e
    | .ok c1 =>
      match extractList dec ns with
      | .error e => .error e
      | .ok c2 => .ok (c1 ++ c2)

end

/-- `extract_citations` (citations.py lines 58-71) on a whole document. -/
def extract_citations (dec : Decoder) (doc : List Node) :
    Except Err (List Citation) :=
  extractList dec doc

mutual

/-- The loop of `add_citations` (citations.py lines 120-131), per node,
threading the counter `i`.  A qualifying span (same `find_all` +
`_has_inner_json_data` tests as extraction) is replaced by a fresh
`<cite>` tag whose string is `citations[i]["properties"]["plainCitation"]`;
`citations[i]` out of range models Python's `IndexError`.  `find_all` took
its snapshot before any replacement, so citation spans nested inside a
replaced span are still visited by the loop — their replacement happens in
the detached subtree (invisible in the document) but the counter still
advances and their exceptions still propagate; hence the children of a
replaced span are processed for their counter effect and errors while their
rewritten nodes are discarded. -/
def rewriteNode (cs : List Citation) (i : Nat) :
    Node → Except Err (Node × Nat)
  | .text s => .ok (.text s, i)
  | .tag name attrs children =>
    if isCitationSpan name attrs then
      match attrFind attrs "data-src" with
      | none => .error (.keyError "data-src")
      | some v =>
        if strStartsWith v jsonHeader then
          match cs[i]? with
          | none => .error .indexError
          | some cit =>
            match rewriteList cs (i + 1) children with
            | .error e => .error e
            | .ok (_, iEnd) =>
              .ok (.tag "cite" [] [.text cit.properties.plainCitation], iEnd)
        else
          match rewriteList cs i children with
          | .error e => .error e
          | .ok (children', iEnd) => .ok (.tag name attrs children', iEnd)
    else
      match rewriteList cs i children with
      | .error e => .error e
      | .ok (children', iEnd) => .ok (.tag name attrs children', iEnd)

/-- The `add_citations` loop over sibling nodes, left to right. -/
def rewriteList (cs : List Citation) (i : Nat) :
    List Node → Except Err (List Node × Nat)
  | [] => .ok ([], i)
  | n :: ns =>
    match rewriteNode cs i n with
    | .error e => .error e
    | .ok (n', i') =>
      match rewriteList cs i' ns with
      | .error e => .error e
      | .ok (ns', i'') => .ok (n' :: ns', i'')

end

/-- `add_citations` (citations.py lines 105-132) on a whole document,
starting from `i = 0`.  The source's `citeproc_citations` and `bib`
parameters are omitted: the body reads neither (they occur only inside the
disabled `GENERATE_CITATION_USING_CITEPROC` string tuple), so the in-text
string is always the group's own `plainCitation`. -/
def add_citations (cs : List Citation) (doc : List Node) :
    Except Err (List Node × Nat) :=
  rewriteList cs 0 doc

/-- `prepare_citations_for_citeproc` (citations.py lines 75-82): concatenate
every item's `itemData` across all groups, group order first, item order
within a group preserved.  No key is inspected here. -/
def prepare_citations_for_citeproc (cits : List Citation) : List ItemData :=
  cits.flatMap (fun g => g.citationItems.map (fun it => it.itemData))

/-- The keys of one group, as built by the inner loop of
`create_citations_to_register` (citations.py lines 97-100):
`str(citation_item["itemData"]["id"])` for each item; a missing `"id"` key
raises `KeyError` and aborts the whole construction. -/
def citationItemKeys : List CitationItem → Except Err (List String)
  | [] => .ok []
  | it :: its =>
    match dictFind it.itemData "id" with
    | none => .error (.keyError "id")
    | some v => (citationItemKeys its).map (fun ks => pyValStr v :: ks)

/-- `create_citations_to_register` (citations.py lines 85-102): one
`citeproc.Citation` per group, modelled as its list of item keys. -/
def create_citations_to_register :
    List Citation → Except Err (List (List String))
  | [] => .ok []
  | g :: gs =>
    match citationItemKeys g.citationItems with
    | .error e => .error e
    | .ok ks =>
      match create_citations_to_register gs with
      | .error e => .error e
      | .ok rest => .ok (ks :: rest)

/-- The external `citeproc` capability, as the deterministic black box the
spec describes.  `styleOk` is whether `CitationStylesStyle(style,
validate=False)` resolves the style identifier (it raises when it cannot);
`bibEntries` is `bib.bibliography()` as a function of the style, the item
pool given to `CiteProcJSON`, and the registered citation key groups;
`cite` is `bib.cite` as a function of the same data plus the group index —
present because the source mentions it (only inside the disabled
`GENERATE_CITATION_USING_CITEPROC` tuple, citations.py lines 124-127), and
never called by the pipeline. -/
structure Engine where
  styleOk : String → Bool
  bibEntries : String → List ItemData → List (List String) → List String
  cite : String → List ItemData → List (List String) → Nat → String

/-- Observable calls the pipeline makes, recorded for the temporal claims:
`register g` is `bibliography.register(citation)` (citations.py line 50),
`replace i` is the `span.replace_with(new_tag)` of the `i`-th qualifying
marker (line 130), `warn k` is the `_warn` printer (lines 113-118) — which
the source defines but never reaches, since `bib.cite` is never called. -/
inductive Event where
  | register : List String → Event
  | replace : Nat → Event
  | warn : String → Event
deriving DecidableEq

/-- Whether an event is a registration. -/
def Event.isRegister : Event → Bool
  | .register _ => true
  | _ => false

/-- Whether an event is a marker replacement. -/
def Event.isReplace : Event → Bool
  | .replace _ => true
  | _ => false

/-- Whether an event is a warning. -/
def Event.isWarn : Event → Bool
  | .warn _ => true
  | _ => false

/-- `add_bibliography` (citations.py lines 135-154).  If `bib.bibliography()`
is empty the soup is returned unchanged.  Otherwise a `div`, an `h1` headed
"Bibliography" and an `ol` with one `li` per rendered entry (engine order,
each wrapped in a literal `<small>` string, line 149) are appended.  Note on
the `div`'s attributes: the source calls bs4's `new_tag` with the dict
holding `class: dgtmon-bibliography` as the SECOND POSITIONAL argument, but
`new_tag`'s second positional parameter is `namespace` (its signature is
`new_tag(self, name, namespace=None, nsprefix=None, attrs=..., **kwattrs)`),
so the dict is bound to the XML namespace slot and the created `div`
carries no attributes at all; the embedding reflects that executed
behavior, hence the empty attribute list on the `div`. -/
def add_bibliography (doc : List Node) (entries : List String) : List Node :=
  if entries.isEmpty then doc
  else
    doc ++
      [Node.tag "div" []
        [Node.tag "h1" [] [Node.text "Bibliography"],
         Node.tag "ol" []
           (entries.map (fun e =>
             Node.tag "li" [] [Node.text ("<small>" ++ e ++ "</small>")]))]]

/-- `add_citations_and_bibliography` (citations.py lines 38-55), the full
pipeline, also returning the trace of observable engine/tree calls made
before the run finished or raised.  Order as in the source: extract (line
41), build the item pool (42) and the `CiteProcJSON` source (43, opaque),
resolve the style (44, raising `StyleNotFound` on an unknown identifier),
build the bibliography (45-47), build the citations to register (48,
may raise `KeyError`), register every group (49-50), rewrite the markers
(51-53), append the bibliography (54). -/
def add_citations_and_bibliography (eng : Engine) (dec : Decoder)
    (style : String) (doc : List Node) :
    List Event × Except Err (List Node) :=
  match extract_citations dec doc with
  | .error e => ([], .error e)
  | .ok cits =>
    let pool := prepare_citations_for_citeproc cits
    if eng.styleOk style then
      match create_citations_to_register cits with
      | .error e => ([], .error e)
      | .ok regs =>
        let regEvents := regs.map Event.register
        match add_citations cits doc with
        | .error e => (regEvents, .error e)
        | .ok (doc', n) =>
          (regEvents ++ (List.range n).map Event.replace,
           .ok (add_bibliography doc' (eng.bibEntries style pool regs)))
    else ([], .error (.styleNotFound style))

/-- Two consecutive full-pipeline runs on the same unmodified input, each
building its own source, style and bibliography instances, exactly as two
separate calls of `add_citations_and_bibliography` do in the source (all
engine state is created inside the call and discarded with it). -/
def runPipelineTwice (eng : Engine) (dec : Decoder) (style : String)
    (doc : List Node) :
    (List Event × Except Err (List Node)) ×
      (List Event × Except Err (List Node)) :=
  (add_citations_and_bibliography eng dec style doc,
   add_citations_and_bibliography eng dec style doc)

/-! Concrete fixtures used by individual claims. -/

/-- A one-item citation group with identifier `"A"` and plain-text citation
`"PLAIN"`. -/
def citC1 : Citation :=
  { citationItems := [{ itemData := [("id", PyVal.pstr "A")] }],
    properties := { plainCitation := "PLAIN" } }

/-- A decoder that decodes the payload `"g1"` to `citC1` and fails on
everything else. -/
def decC1 : Decoder := fun s => if s == "g1" then some citC1 else none

/-- A document holding a single qualifying citation marker with payload
`"g1"`. -/
def docC1 : List Node :=
  [Node.tag "span"
    [("class", "citation"), ("data-src", "data:application/json;base64,g1")]
    []]

/-- An engine whose in-text formatter `cite` would return `"ENGINE"` for
every group, resolving every style and rendering no bibliography entries. -/
def engC1 : Engine :=
  { styleOk := fun _ => true,
    bibEntries := fun _ _ _ => [],
    cite := fun _ _ _ _ => "ENGINE" }

/-- C1: the pipeline replaces the marker with the group's own
`plainCitation` string, not with the style engine's `cite` result: on a
document with one qualifying marker whose group has `plainCitation`
`"PLAIN"`, and an engine whose `cite` returns `"ENGINE"` for the first
registered group, the rewritten document carries the text `"PLAIN"`, which
differs from the `cite` result.  The `bib.cite` call sits in the disabled
`GENERATE_CITATION_USING_CITEPROC` string tuple (citations.py lines
124-127) and is never executed. -/
theorem plain_citation_not_cite_result :
    add_citations_and_bibliography engC1 decC1 "harvard1" docC1 =
      ([Event.register ["A"], Event.replace 0],
       Except.ok [Node.tag "cite" [] [Node.text "PLAIN"]]) ∧
    engC1.cite "harvard1" (prepare_citations_for_citeproc [citC1]) [["A"]] 0
      = "ENGINE" ∧
    "PLAIN" ≠ "ENGINE" := by
  refine ⟨rfl, rfl, ?_⟩
  decide

/-- C3: the full pipeline is a deterministic function of the input tree, the
decoder, the engine and the style: two consecutive runs on the same
unmodified input return identical traces and identical rewritten trees,
because every piece of engine state (source, style, bibliography) is
created inside the call and discarded with it. -/
theorem pipeline_runs_twice_identical (eng : Engine) (dec : Decoder)
    (style : String) (doc : List Node) :
    (runPipelineTwice eng dec style doc).1 =
      (runPipelineTwice eng dec style doc).2 := rfl

/-- A one-item citation group whose item identifier `"MISSING"` stands for a
key the built bibliographic source cannot resolve, with `plainCitation`
`"Smith 2020"`. -/
def citC5 : Citation :=
  { citationItems := [{ itemData := [("id", PyVal.pstr "MISSING")] }],
    properties := { plainCitation := "Smith 2020" } }

/-- A decoder decoding payload `"g1"` to `citC5`. -/
def decC5 : Decoder := fun s => if s == "g1" then some citC5 else none

/-- A document holding a single qualifying marker with payload `"g1"`. -/
def docC5 : List Node :=
  [Node.tag "span"
    [("class", "citation"), ("data-src", "data:application/json;base64,g1")]
    []]

/-- An engine for the missing-identifier scenario. -/
def engC5 : Engine :=
  { styleOk := fun _ => true,
    bibEntries := fun _ _ _ => ["BibEntry"],
    cite := fun _ _ _ _ => "X" }

/-- C5: on a group whose identifier is absent from the built source, the
pipeline does not abort and renders the group's own `plainCitation`
(`"Smith 2020"`) in place of the marker — but it records zero warnings, not
exactly one: the `_warn` printer (citations.py lines 113-118) is only ever
passed to `bib.cite`, and that call is disabled, so no run can emit a
warning for any group, resolvable or not. -/
theorem plain_fallback_without_warning :
    add_citations_and_bibliography engC5 decC5 "harvard1" docC5 =
      ([Event.register ["MISSING"], Event.replace 0],
       Except.ok
         [Node.tag "cite" [] [Node.text "Smith 2020"],
          Node.tag "div" []
            [Node.tag "h1" [] [Node.text "Bibliography"],
             Node.tag "ol" []
               [Node.tag "li" [] [Node.text "<small>BibEntry</small>"]]]]) ∧
    ((add_citations_and_bibliography engC5 decC5 "harvard1" docC5).1.filter
        Event.isWarn) = [] := ⟨rfl, rfl⟩

/-- C8: when the rendered bibliography has zero entries, appending the
bibliography returns the tree unchanged — no container element is injected
(citations.py lines 139-140). -/
theorem add_bibliography_empty_unchanged (doc : List Node) :
    add_bibliography doc [] = doc := rfl

/-- C9: on a non-empty entry list, exactly one `div` container holding an
`h1` heading and an `ol` with one `li` per entry (in engine order) is
appended — but the container carries no attributes, in particular not the
intended `dgtmon-bibliography` class: the attribute dict is passed to bs4
`new_tag`'s second positional parameter, which is `namespace`, not `attrs`
(citations.py line 141), so it never becomes an attribute. -/
theorem bibliography_container_lacks_class_attr :
    add_bibliography [] ["E1", "E2"] =
      [Node.tag "div" []
        [Node.tag "h1" [] [Node.text "Bibliography"],
         Node.tag "ol" []
           [Node.tag "li" [] [Node.text "<small>E1</small>"],
            Node.tag "li" [] [Node.text "<small>E2</small>"]]]] := rfl

/-- Every trace the pipeline can emit is a block of registration events
followed by a block of replacement events (and nothing else): the shape of
`add_citations_and_bibliography` in every branch. -/
theorem trace_shape (eng : Engine) (dec : Decoder) (style : String)
    (doc : List Node) :
    ∃ (regs : List (List String)) (n : Nat),
      (add_citations_and_bibliography eng dec style doc).1 =
        regs.map Event.register ++ (List.range n).map Event.replace := by
  unfold add_citations_and_bibliography
  cases extract_citations dec doc with
  | error e => exact ⟨[], 0, rfl⟩
  | ok cits =>
    cases hsty : eng.styleOk style with
    | false => exact ⟨[], 0, by simp [hsty]⟩
    | true =>
      simp only [hsty, if_true]
      cases create_citations_to_register cits with
      | error e => exact ⟨[], 0, rfl⟩
      | ok regs =>
        cases add_citations cits doc with
        | error e => exact ⟨regs, 0, by simp⟩
        | ok p =>
          obtain ⟨doc', n⟩ := p
          exact ⟨regs, n, rfl⟩

/-- In a register-block-then-replace-block list, every registration index is
strictly below every replacement index. -/
theorem register_index_lt_replace_index {A : List (List String)} {n i j m : Nat}
    {ks : List String}
    (hi : (A.map Event.register ++ (List.range n).map Event.replace)[i]? =
      some (Event.register ks))
    (hj : (A.map Event.register ++ (List.range n).map Event.replace)[j]? =
      some (Event.replace m)) :
    i < j := by
  have hiLt : i < (A.map Event.register).length := by
    by_contra hge
    push_neg at hge
    rw [List.getElem?_append_right hge, List.getElem?_map] at hi
    cases h' : (List.range n)[i - (A.map Event.register).length]? with
    | none => rw [h'] at hi; cases hi
    | some a => rw [h'] at hi; cases hi
  have hjGe : (A.map Event.register).length ≤ j := by
    by_contra hlt
    push_neg at hlt
    rw [List.getElem?_append_left hlt, List.getElem?_map] at hj
    cases h' : A[j]? with
    | none => rw [h'] at hj; cases hj
    | some a => rw [h'] at hj; cases hj
  exact Nat.lt_of_lt_of_le hiLt hjGe

/-- C2: in every pipeline run, every `bibliography.register` call precedes
every marker replacement in the emitted trace: the registration pass over
all groups (citations.py lines 49-50) completes before the first
replacement step of `add_citations` (line 51) begins, with no
interleaving. -/
theorem register_events_precede_replace_events (eng : Engine) (dec : Decoder)
    (style : String) (doc : List Node) (i j : Nat) (ks : List String) (m : Nat)
    (hi : (add_citations_and_bibliography eng dec style doc).1[i]? =
      some (Event.register ks))
    (hj : (add_citations_and_bibliography eng dec style doc).1[j]? =
      some (Event.replace m)) :
    i < j := by
  obtain ⟨A, n, hT⟩ := trace_shape eng dec style doc
  rw [hT] at hi hj
  exact register_index_lt_replace_index hi hj

/-- A one-item group used by the C2 witness run. -/
def citC2 : Citation :=
  { citationItems := [{ itemData := [("id", PyVal.pstr "A")] }],
    properties := { plainCitation := "P" } }

/-- A decoder decoding payload `"g1"` to `citC2`. -/
def decC2 : Decoder := fun s => if s == "g1" then some citC2 else none

/-- A document holding a single qualifying marker with payload `"g1"`. -/
def docC2 : List Node :=
  [Node.tag "span"
    [("class", "citation"), ("data-src", "data:application/json;base64,g1")]
    []]

/-- An engine accepting every style for the C2 witness run. -/
def engC2 : Engine :=
  { styleOk := fun _ => true,
    bibEntries := fun _ _ _ => [],
    cite := fun _ _ _ _ => "" }

/-- Witness for C2: a concrete run whose trace holds a registration at
index 0 and a replacement at index 1, so the theorem yields `0 < 1`. -/
theorem register_events_precede_replace_events_witness : (0 : Nat) < 1 :=
  register_events_precede_replace_events engC2 decC2 "harvard1" docC2
    0 1 ["A"] 0 rfl rfl

/-- C7: when the engine cannot resolve the style identifier, the run fails
and no registration call is ever issued; moreover, whenever extraction
itself succeeded, the reported failure is precisely the style-not-found
error, raised before any registration work (the style is resolved at
citations.py line 44, before `create_citations_to_register` at line 48 and
the register loop at lines 49-50). -/
theorem style_not_found_fails_before_registration (eng : Engine)
    (dec : Decoder) (style : String) (doc : List Node)
    (h : eng.styleOk style = false) :
    (∀ ks, Event.register ks ∉
      (add_citations_and_bibliography eng dec style doc).1) ∧
    (∃ e, (add_citations_and_bibliography eng dec style doc).2 =
      Except.error e) ∧
    (∀ cits, extract_citations dec doc = Except.ok cits →
      (add_citations_and_bibliography eng dec style doc).2 =
        Except.error (Err.styleNotFound style)) := by
  have hmain : add_citations_and_bibliography eng dec style doc =
      match extract_citations dec doc with
      | .error e => ([], .error e)
      | .ok _ => ([], .error (.styleNotFound style)) := by
    unfold add_citations_and_bibliography
    cases extract_citations dec doc with
    | error e => rfl
    | ok cits => simp [h]
  cases hex : extract_citations dec doc with
  | error e =>
    rw [hmain, hex]
    refine ⟨fun ks hmem => ?_, ⟨e, rfl⟩, fun cits hc => ?_⟩
    · cases hmem
    · cases hc
  | ok cits =>
    rw [hmain, hex]
    refine ⟨fun ks hmem => ?_, ⟨Err.styleNotFound style, rfl⟩, fun _ _ => rfl⟩
    cases hmem

/-- An engine resolving no style at all, for the C7 witness. -/
def engC7 : Engine :=
  { styleOk := fun _ => false,
    bibEntries := fun _ _ _ => [],
    cite := fun _ _ _ _ => "" }

/-- Witness for C7: a concrete run with an unresolvable style identifier
reports the style-not-found error. -/
theorem style_not_found_fails_before_registration_witness :
    (add_citations_and_bibliography engC7 (fun _ => none) "unknown" []).2 =
      Except.error (Err.styleNotFound "unknown") :=
  (style_not_found_fails_before_registration engC7 (fun _ => none)
    "unknown" [] rfl).2.2 [] rfl

mutual

/-- If extraction of one node succeeds with groups `gs`, then rewriting that
node with any citation list long enough succeeds and advances the counter by
exactly `gs.length`: both sides qualify markers by the identical
`isCitationSpan` / data-URI-header test. -/
theorem extract_rewrite_node (dec : Decoder) :
    ∀ (n : Node) (gs cs : List Citation) (i : Nat),
      extractNode dec n = Except.ok gs → i + gs.length ≤ cs.length →
      ∃ n', rewriteNode cs i n = Except.ok (n', i + gs.length)
  | .text s, gs, cs, i, hex, _ => by
    simp only [extractNode] at hex
    injection hex with h
    subst h
    exact ⟨.text s, by simp [rewriteNode]⟩
  | .tag name attrs children, gs, cs, i, hex, hle => by
    cases hcit : isCitationSpan name attrs with
    | false =>
      simp only [extractNode, hcit, Bool.false_eq_true, if_false] at hex
      obtain ⟨ns', hrw⟩ := extract_rewrite_list dec children gs cs i hex hle
      refine ⟨.tag name attrs ns', ?_⟩
      simp only [rewriteNode, hcit, Bool.false_eq_true, if_false, hrw]
    | true =>
      cases hsrc : attrFind attrs "data-src" with
      | none =>
        simp only [extractNode, hcit, if_true, hsrc] at hex
        exact Except.noConfusion hex
      | some v =>
        cases hsw : strStartsWith v jsonHeader with
        | false =>
          simp only [extractNode, hcit, if_true, hsrc, hsw,
            Bool.false_eq_true, if_false] at hex
          obtain ⟨ns', hrw⟩ :=
            extract_rewrite_list dec children gs cs i hex hle
          refine ⟨.tag name attrs ns', ?_⟩
          simp only [rewriteNode, hcit, if_true, hsrc, hsw,
            Bool.false_eq_true, if_false, hrw]
        | true =>
          cases hdec : dec (strDrop v jsonHeader.length) with
          | none =>
            simp only [extractNode, hcit, if_true, hsrc, hsw, hdec] at hex
            exact Except.noConfusion hex
          | some cit =>
            simp only [extractNode, hcit, if_true, hsrc, hsw, hdec] at hex
            cases hel : extractList dec children with
            | error e =>
              rw [hel] at hex
              exact Except.noConfusion hex
            | ok gs0 =>
              rw [hel] at hex
              injection hex with h
              subst h
              have hle' : (i + 1) + gs0.length ≤ cs.length := by
                simp only [List.length_cons] at hle; omega
              obtain ⟨ns', hrw⟩ :=
                extract_rewrite_list dec children gs0 cs (i + 1) hel hle'
              have hidx : i < cs.length := by
                simp only [List.length_cons] at hle; omega
              refine ⟨.tag "cite" [] [.text cs[i].properties.plainCitation],
                ?_⟩
              simp only [rewriteNode, hcit, if_true, hsrc, hsw,
                List.getElem?_eq_getElem hidx, hrw, List.length_cons]
              have harith : i + 1 + gs0.length = i + (gs0.length + 1) := by
                omega
              rw [harith]

/-- List version of `extract_rewrite_node`, over sibling nodes. -/
theorem extract_rewrite_list (dec : Decoder) :
    ∀ (ns : List Node) (gs cs : List Citation) (i : Nat),
      extractList dec ns = Except.ok gs → i + gs.length ≤ cs.length →
      ∃ ns', rewriteList cs i ns = Except.ok (ns', i + gs.length)
  | [], gs, cs, i, hex, _ => by
    simp only [extractList] at hex
    injection hex with h
    subst h
    exact ⟨[], by simp [rewriteList]⟩
  | n :: ns, gs, cs, i, hex, hle => by
    simp only [extractList] at hex
    cases hn : extractNode dec n with
    | error e =>
      rw [hn] at hex
      exact Except.noConfusion hex
    | ok c1 =>
      rw [hn] at hex
      cases hns : extractList dec ns with
      | error e =>
        rw [hns] at hex
        exact Except.noConfusion hex
      | ok c2 =>
        rw [hns] at hex
        injection hex with h
        subst h
        have h1 : i + c1.length ≤ cs.length := by
          simp only [List.length_append] at hle; omega
        obtain ⟨n', hrwn⟩ := extract_rewrite_node dec n c1 cs i hn h1
        have h2 : (i + c1.length) + c2.length ≤ cs.length := by
          simp only [List.length_append] at hle; omega
        obtain ⟨ns', hrwl⟩ :=
          extract_rewrite_list dec ns c2 cs (i + c1.length) hns h2
        refine ⟨n' :: ns', ?_⟩
        simp only [rewriteList, hrwn, hrwl, List.length_append]
        have harith : i + c1.length + c2.length =
            i + (c1.length + c2.length) := by omega
        rw [harith]

end

/-- C10: extraction and rewriting qualify markers by the identical predicate,
so whenever extraction of a document succeeds with groups `gs`, rewriting
the same unmodified document succeeds (every `citations[i]` lookup is in
bounds — no `IndexError`) and performs exactly `gs.length` replacements. -/
theorem extract_rewrite_counts_agree (dec : Decoder) (doc : List Node)
    (gs : List Citation)
    (hex : extract_citations dec doc = Except.ok gs) :
    ∃ doc', add_citations gs doc = Except.ok (doc', gs.length) := by
  obtain ⟨doc', h⟩ :=
    extract_rewrite_list dec doc gs gs 0 hex (by omega)
  exact ⟨doc', by simpa using h⟩

/-- A one-item group for the C10 witness. -/
def citC10 : Citation :=
  { citationItems := [{ itemData := [("id", PyVal.pstr "A")] }],
    properties := { plainCitation := "P" } }

/-- A decoder decoding payload `"g1"` to `citC10`. -/
def decC10 : Decoder := fun s => if s == "g1" then some citC10 else none

/-- A document with one qualifying marker (payload `"g1"`), one
non-qualifying citation span (no data-URI header) and surrounding text. -/
def docC10 : List Node :=
  [Node.text "before",
   Node.tag "span"
     [("class", "citation"), ("data-src", "data:application/json;base64,g1")]
     [],
   Node.tag "span" [("class", "citation"), ("data-src", "plain.json")] [],
   Node.text "after"]

/-- Witness for C10: on a concrete document, extraction yields one group and
the rewrite succeeds with exactly one replacement. -/
theorem extract_rewrite_counts_agree_witness :
    ∃ doc', add_citations [citC10] docC10 = Except.ok (doc', 1) :=
  extract_rewrite_counts_agree decC10 docC10 [citC10] rfl

/-- `citationItemKeys` can only fail with the `KeyError` on `"id"`. -/
theorem citationItemKeys_error_eq :
    ∀ (its : List CitationItem) (e : Err),
      citationItemKeys its = Except.error e → e = Err.keyError "id"
  | [], e, hex => Except.noConfusion hex
  | it :: its, e, hex => by
    simp only [citationItemKeys] at hex
    cases hid : dictFind it.itemData "id" with
    | none =>
      rw [hid] at hex
      injection hex with h
      exact h.symm
    | some v =>
      rw [hid] at hex
      cases hk : citationItemKeys its with
      | error e' =>
        rw [hk] at hex
        injection hex with h
        exact h ▸ citationItemKeys_error_eq its e' hk
      | ok ks =>
        rw [hk] at hex
        exact Except.noConfusion hex

/-- If some item of a group lacks its `"id"` entry, building that group's
keys raises the `KeyError` on `"id"`. -/
theorem citationItemKeys_missing :
    ∀ (its : List CitationItem),
      (∃ it ∈ its, dictFind it.itemData "id" = none) →
      citationItemKeys its = Except.error (Err.keyError "id")
  | [], hmiss => absurd hmiss (by simp)
  | it :: its, hmiss => by
    cases hid : dictFind it.itemData "id" with
    | none => simp only [citationItemKeys, hid]
    | some v =>
      obtain ⟨it0, hmem, h0⟩ := hmiss
      rcases List.mem_cons.mp hmem with heq | htail
      · subst heq
        rw [hid] at h0
        cases h0
      · have ih := citationItemKeys_missing its ⟨it0, htail, h0⟩
        simp only [citationItemKeys, hid, ih, Except.map]

/-- If any item of any group lacks its `"id"` entry,
`create_citations_to_register` raises the `KeyError` on `"id"` — before any
group is registered. -/
theorem create_citations_missing_id :
    ∀ (gs : List Citation),
      (∃ g ∈ gs, ∃ it ∈ g.citationItems, dictFind it.itemData "id" = none) →
      create_citations_to_register gs = Except.error (Err.keyError "id")
  | [], hmiss => absurd hmiss (by simp)
  | g :: gs, hmiss => by
    cases hk : citationItemKeys g.citationItems with
    | error e =>
      have he := citationItemKeys_error_eq g.citationItems e hk
      subst he
      simp only [create_citations_to_register, hk]
    | ok ks =>
      obtain ⟨g0, hmem, hitem⟩ := hmiss
      rcases List.mem_cons.mp hmem with heq | htail
      · subst heq
        rw [citationItemKeys_missing g0.citationItems hitem] at hk
        exact Except.noConfusion hk
      · have ih := create_citations_missing_id gs ⟨g0, htail, hitem⟩
        simp only [create_citations_to_register, hk, ih]

/-- C6 (amended): if any citation item in any extracted group lacks its
`"id"` entry, the whole-document run fails with the structural `KeyError`
raised while building the citations to register (citations.py line 99), and
the emitted trace is empty — no group is registered and no marker is
rewritten, so no partially rewritten document is produced.  (Marker-level
decode failures are likewise fatal, see the counterexample.) -/
theorem missing_id_aborts_before_rewrite (eng : Engine) (dec : Decoder)
    (style : String) (doc : List Node) (cits : List Citation)
    (hex : extract_citations dec doc = Except.ok cits)
    (hsty : eng.styleOk style = true)
    (hmiss : ∃ g ∈ cits, ∃ it ∈ g.citationItems,
      dictFind it.itemData "id" = none) :
    add_citations_and_bibliography eng dec style doc =
      ([], Except.error (Err.keyError "id")) := by
  have hcr := create_citations_missing_id cits hmiss
  unfold add_citations_and_bibliography
  simp only [hex, hsty, if_true, hcr]

/-- A group whose only item's `itemData` has no `"id"` entry. -/
def citC6 : Citation :=
  { citationItems := [{ itemData := [("title", PyVal.pstr "T")] }],
    properties := { plainCitation := "P" } }

/-- A decoder decoding payload `"g1"` to the id-less group `citC6`. -/
def decC6 : Decoder := fun s => if s == "g1" then some citC6 else none

/-- A document with one qualifying marker carrying payload `"g1"`. -/
def docC6 : List Node :=
  [Node.tag "span"
    [("class", "citation"), ("data-src", "data:application/json;base64,g1")]
    []]

/-- An engine accepting every style, for the C6 runs. -/
def engC6 : Engine :=
  { styleOk := fun _ => true,
    bibEntries := fun _ _ _ => [],
    cite := fun _ _ _ _ => "" }

/-- Witness for amended C6: the concrete id-less run aborts with the
`KeyError` and an empty trace. -/
theorem missing_id_aborts_before_rewrite_witness :
    add_citations_and_bibliography engC6 decC6 "harvard1" docC6 =
      ([], Except.error (Err.keyError "id")) :=
  missing_id_aborts_before_rewrite engC6 decC6 "harvard1" docC6 [citC6]
    rfl rfl
    ⟨citC6, by simp,
      ⟨{ itemData := [("title", PyVal.pstr "T")] }, by simp [citC6], rfl⟩⟩

/-- Counterexample to C6 as stated: a marker-level decode failure is NOT
non-fatal — on a document whose only marker has the data-URI header but an
undecodable payload, the whole run aborts with the decode error and an
empty trace, exactly like the structural failure. -/
theorem decode_failure_aborts_document :
    add_citations_and_bibliography engC6 (fun _ => none) "harvard1"
      [Node.tag "span"
        [("class", "citation"),
         ("data-src", "data:application/json;base64,zz")] []] =
      ([], Except.error Err.decodeError) := rfl

/-- C4 (amended): a citation-class span whose `data-src` does not start with
the data-URI header is skipped — it contributes no group to extraction and
rewriting keeps the element itself (its children are still traversed, as
bs4's `find_all` descends into matches); but a span whose payload has the
header and is undecodable makes extraction raise the decode error, and a
span with no `data-src` attribute at all makes extraction raise `KeyError`
(citations.py line 35 reads `span.attrs` unguarded). -/
theorem nonheader_skipped_bad_payload_fatal (dec : Decoder) (nm : String)
    (attrs : Attrs) (children : List Node) (cs : List Citation) (i : Nat)
    (hcit : isCitationSpan nm attrs = true) :
    (∀ v, attrFind attrs "data-src" = some v →
      strStartsWith v jsonHeader = false →
      extractNode dec (Node.tag nm attrs children) =
        extractList dec children ∧
      rewriteNode cs i (Node.tag nm attrs children) =
        (rewriteList cs i children).map
          (fun p => (Node.tag nm attrs p.1, p.2))) ∧
    (∀ v, attrFind attrs "data-src" = some v →
      strStartsWith v jsonHeader = true →
      dec (strDrop v jsonHeader.length) = none →
      extractNode dec (Node.tag nm attrs children) =
        Except.error Err.decodeError) ∧
    (attrFind attrs "data-src" = none →
      extractNode dec (Node.tag nm attrs children) =
        Except.error (Err.keyError "data-src")) := by
  refine ⟨fun v hsrc hsw => ⟨?_, ?_⟩, fun v hsrc hsw hdec => ?_, fun hsrc => ?_⟩
  · simp only [extractNode, hcit, if_true, hsrc, hsw, Bool.false_eq_true,
      if_false]
  · simp only [rewriteNode, hcit, if_true, hsrc, hsw, Bool.false_eq_true,
      if_false]
    cases hrl : rewriteList cs i children with
    | error e => simp [Except.map]
    | ok p =>
      obtain ⟨c', i'⟩ := p
      simp [Except.map]
  · simp only [extractNode, hcit, if_true, hsrc, hsw, hdec]
  · simp only [extractNode, hcit, if_true, hsrc]

/-- Witness for amended C4: a concrete citation span with a non-header
`data-src` is skipped by extraction. -/
theorem nonheader_skipped_bad_payload_fatal_witness :
    extractNode (fun _ => none)
      (Node.tag "span" [("class", "citation"), ("data-src", "plain.json")]
        []) =
      extractList (fun _ => none) [] :=
  ((nonheader_skipped_bad_payload_fatal (fun _ => none) "span"
    [("class", "citation"), ("data-src", "plain.json")] [] [] 0 rfl).1
    "plain.json" rfl rfl).1

/-- Counterexample to C4 as stated: extraction does not skip a marker with a
malformed or absent payload — it raises.  With the data-URI header but an
undecodable payload the decode error propagates, and with no `data-src`
attribute the attribute lookup raises `KeyError`. -/
theorem malformed_payload_raises :
    extract_citations (fun _ => none)
      [Node.tag "span"
        [("class", "citation"),
         ("data-src", "data:application/json;base64,%%")] []] =
      Except.error Err.decodeError ∧
    extract_citations (fun _ => none)
      [Node.tag "span" [("class", "citation")] []] =
      Except.error (Err.keyError "data-src") := ⟨rfl, rfl⟩

end Citations

